import Mathlib

/-!
# Verification of the amul-protein-stock-notifier core

Shallow embedding of the Go sources (stock state machine, subscription
registry, notification throttle/dispatcher, session refresh control flow)
together with theorems settling the behavioural claims about them.

Go maps are modelled as association lists (`lookupKey` / `insertKey`);
machine time instants and durations are modelled as integer seconds;
HTTP and Telegram interactions are modelled by passing the observable
outcome of each external call as an explicit argument.
-/

namespace AmulNotifier

/-- Association-list lookup, modelling Go map indexing `m[k]` with its
comma-ok form (`none` = key absent). -/
def lookupKey {β : Type} : List (String × β) → String → Option β
  | [], _ => none
  | (k, v) :: rest, k' => if k' = k then some v else lookupKey rest k'

/-- Association-list insertion-or-replacement, modelling Go map assignment
`m[k] = v`. -/
def insertKey {β : Type} : List (String × β) → String → β → List (String × β)
  | [], k, v => [(k, v)]
  | (k', v') :: rest, k, v =>
      if k' = k then (k, v) :: rest else (k', v') :: insertKey rest k v

/-! ## Stock state machine (internal/bot/bot.go, src/unnamed/part_001) -/

/-- `ProductInfo`: one element of the catalog API's `data` array. -/
structure ProductInfo where
  id : String := ""
  name : String := ""
  aliasField : String := ""
  sku : String
  available : Int
  inventoryQuantity : Int := 0
  price : Int := 0
deriving DecidableEq

/-- The two mutable per-item maps of the `Bot`:
`productStockState : map[string]bool` and `productDetails : map[string]ProductInfo`. -/
structure CheckState where
  productStockState : List (String × Bool)
  productDetails : List (String × ProductInfo)
deriving DecidableEq

/-- One call `SendStockNotificationToSubscribers(sku, productInfo, isInStock)`
emitted while processing a cycle. -/
structure StockNotification where
  sku : String
  isInStock : Bool
deriving DecidableEq

/-- Body of the monitored-product branch of the snapshot loop in
`CheckTargetStock` (part_001 lines 286-319): store details, compute
`currentStockStatus := product.Available == 1`, notify in-stock whenever the
product is currently available, notify out-of-stock on a recorded
true-to-false transition, then record the new status. -/
def processPresentProduct (st : CheckState) (product : ProductInfo) :
    CheckState × List StockNotification :=
  let currentStockStatus : Bool := product.available == 1
  let previousStockStatus := lookupKey st.productStockState product.sku
  let inStockNotifs : List StockNotification :=
    if currentStockStatus then [{ sku := product.sku, isInStock := true }] else []
  let outOfStockNotifs : List StockNotification :=
    if currentStockStatus = false ∧ previousStockStatus = some true then
      [{ sku := product.sku, isInStock := false }]
    else []
  ({ productStockState := insertKey st.productStockState product.sku currentStockStatus,
     productDetails := insertKey st.productDetails product.sku product },
   inStockNotifs ++ outOfStockNotifs)

/-- Body of the absent-SKU loop in `CheckTargetStock` (part_001 lines 322-351):
a monitored SKU missing from the response is recorded as out of stock; only a
previously-in-stock SKU triggers an out-of-stock notification. -/
def processAbsentSKU (st : CheckState) (sku : String) :
    CheckState × List StockNotification :=
  match lookupKey st.productStockState sku with
  | some true =>
      ({ st with productStockState := insertKey st.productStockState sku false },
       [{ sku := sku, isInStock := false }])
  | some false =>
      ({ st with productStockState := insertKey st.productStockState sku false }, [])
  | none =>
      ({ st with productStockState := insertKey st.productStockState sku false }, [])

/-- One iteration of the snapshot loop: only monitored products are processed,
and processed products are added to `targetSKUsFoundThisCycle`. -/
def presentStep (monitoredSKUs : List String)
    (acc : CheckState × List String × List StockNotification) (product : ProductInfo) :
    CheckState × List String × List StockNotification :=
  let (st, found, notifs) := acc
  if product.sku ∈ monitoredSKUs then
    let r := processPresentProduct st product
    (r.1, found ++ [product.sku], notifs ++ r.2)
  else acc

/-- The snapshot loop (`for _, product := range productList.Data`). -/
def presentPass (monitoredSKUs : List String) :
    CheckState × List String × List StockNotification → List ProductInfo →
    CheckState × List String × List StockNotification
  | acc, [] => acc
  | acc, p :: rest => presentPass monitoredSKUs (presentStep monitoredSKUs acc p) rest

/-- One iteration of the absent-SKU loop (`for sku := range monitoredSKUs`):
SKUs found this cycle are skipped. -/
def absentStep (found : List String) (acc : CheckState × List StockNotification)
    (sku : String) : CheckState × List StockNotification :=
  if sku ∈ found then acc
  else
    let (st, notifs) := acc
    let r := processAbsentSKU st sku
    (r.1, notifs ++ r.2)

/-- The absent-SKU loop. -/
def absentPass (found : List String) :
    CheckState × List StockNotification → List String →
    CheckState × List StockNotification
  | acc, [] => acc
  | acc, sku :: rest => absentPass found (absentStep found acc sku) rest

/-- The state-mutating tail of `CheckTargetStock` once a snapshot has been
fetched and parsed: process present products, then sweep monitored SKUs that
were not found. -/
def checkTargetStockCycle (monitoredSKUs : List String) (snapshot : List ProductInfo)
    (st : CheckState) : CheckState × List StockNotification :=
  let r1 := presentPass monitoredSKUs (st, [], []) snapshot
  absentPass r1.2.1 (r1.1, r1.2.2) monitoredSKUs

/-- Observable outcome of the catalog fetch attempted by `CheckTargetStock`:
request-construction error, transport error, body-read error, or a response
with its HTTP status and the parse result of its body (`none` = malformed
JSON). -/
inductive FetchResult where
  | requestError
  | networkError
  | readError
  | response (status : Nat) (parsed : Option (List ProductInfo))
deriving DecidableEq

/-- `CheckTargetStock` (part_001 lines 245-352): every failure before a
successfully parsed 200 response returns without touching either map and
without emitting any notification; otherwise the two-pass cycle runs. -/
def checkTargetStock (monitoredSKUs : List String) (fetch : FetchResult)
    (st : CheckState) : CheckState × List StockNotification :=
  match fetch with
  | .requestError => (st, [])
  | .networkError => (st, [])
  | .readError => (st, [])
  | .response status parsed =>
      if status = 200 then
        match parsed with
        | none => (st, [])
        | some snapshot => checkTargetStockCycle monitoredSKUs snapshot st
      else (st, [])

/-- Notifications of a cycle that concern a given SKU. -/
def notifsFor (sku : String) (l : List StockNotification) : List StockNotification :=
  l.filter (fun n => n.sku == sku)

/-! ## Subscription registry (internal/bot/interactive_bot.go) -/

/-- `UserSubscription` (interactive_bot.go lines 17-28). Times are integer
seconds; `lastNotification` is `Option`-wrapped because Go distinguishes a nil
map (as in a fresh `subscribeToProduct` record) from an empty one. -/
structure UserSubscription where
  userID : String := ""
  username : String := ""
  monitoredSKUs : List (String × Bool) := []
  location : String := ""
  storeCode : String := ""
  notificationFrequency : String := ""
  lastNotification : Option (List (String × Int)) := none
  lastManualCheck : Int := 0
  createdAt : Int := 0
  updatedAt : Int := 0
deriving DecidableEq

/-- Indexing a possibly-nil Go map: `subscription.LastNotification[sku]`
with the comma-ok form (nil map always reports absent). -/
def lookupLastNotification (m : Option (List (String × Int))) (sku : String) : Option Int :=
  match m with
  | none => none
  | some entries => lookupKey entries sku

/-- The in-memory registry: `subscriptions map[int64]*UserSubscription`,
keyed here by the decimal string of the user id. -/
def Registry : Type := List (String × UserSubscription)

/-- `ShouldSendNotification` (interactive_bot.go lines 1273-1315): missing
subscription ⇒ false; unset or `"every_check"` frequency ⇒ true; no recorded
last notification for the SKU ⇒ true; otherwise compare the elapsed time
against the frequency's minimum interval, with unknown frequency strings
defaulting to true. -/
def shouldSendNotification (subscriptions : Registry) (userID : String) (sku : String)
    (now : Int) : Bool :=
  match lookupKey subscriptions userID with
  | none => false
  | some sub =>
    if sub.notificationFrequency = "" ∨ sub.notificationFrequency = "every_check" then
      true
    else
      match lookupLastNotification sub.lastNotification sku with
      | none => true
      | some last =>
        let timeSinceLastNotification := now - last
        if sub.notificationFrequency = "every_30_minutes" then
          decide (timeSinceLastNotification ≥ 30 * 60)
        else if sub.notificationFrequency = "hourly" then
          decide (timeSinceLastNotification ≥ 60 * 60)
        else if sub.notificationFrequency = "every_3_hours" then
          decide (timeSinceLastNotification ≥ 3 * 60 * 60)
        else if sub.notificationFrequency = "every_6_hours" then
          decide (timeSinceLastNotification ≥ 6 * 60 * 60)
        else if sub.notificationFrequency = "every_12_hours" then
          decide (timeSinceLastNotification ≥ 12 * 60 * 60)
        else if sub.notificationFrequency = "daily" then
          decide (timeSinceLastNotification ≥ 24 * 60 * 60)
        else if sub.notificationFrequency = "every_3_days" then
          decide (timeSinceLastNotification ≥ 72 * 60 * 60)
        else true

/-- The minimum re-notify interval (seconds) of each throttled frequency
setting, read off the switch in `ShouldSendNotification`; `none` for the
unthrottled or unknown settings. -/
def throttledInterval (frequency : String) : Option Int :=
  if frequency = "every_30_minutes" then some (30 * 60)
  else if frequency = "hourly" then some (60 * 60)
  else if frequency = "every_3_hours" then some (3 * 60 * 60)
  else if frequency = "every_6_hours" then some (6 * 60 * 60)
  else if frequency = "every_12_hours" then some (12 * 60 * 60)
  else if frequency = "daily" then some (24 * 60 * 60)
  else if frequency = "every_3_days" then some (72 * 60 * 60)
  else none

/-- `UpdateLastNotification` (interactive_bot.go lines 1318-1336): a missing
subscription is a silent no-op; otherwise initialize the possibly-nil map,
stamp the SKU's last-notification time and the record's `UpdatedAt`. -/
def updateLastNotification (subscriptions : Registry) (userID : String) (sku : String)
    (now : Int) : Registry :=
  match lookupKey subscriptions userID with
  | none => subscriptions
  | some sub =>
    let entries :=
      match sub.lastNotification with
      | none => []
      | some m => m
    insertKey subscriptions userID
      { sub with lastNotification := some (insertKey entries sku now), updatedAt := now }

/-- The static product catalog `availableProducts` (interactive_bot.go lines
39-57), reduced to SKU → product name. -/
def availableProducts : List (String × String) :=
  [("DBDCP44_30", "Amul Kool Protein Milkshake | Chocolate, 180 mL | Pack of 30"),
   ("DBDCP43_30", "Amul Kool Protein Milkshake | Arabica Coffee, 180 mL | Pack of 30"),
   ("DBDCP42_30", "Amul Kool Protein Milkshake | Kesar, 180 mL | Pack of 30"),
   ("DBDCP41_30", "Amul High Protein Blueberry Shake, 200 mL | Pack of 30"),
   ("HPPCP01_02", "Amul High Protein Paneer, 400 g | Pack of 2"),
   ("HPPCP01_24", "Amul High Protein Paneer, 400 g | Pack of 24"),
   ("WPCCP04_01", "Amul Whey Protein Gift Pack, 32 g | Pack of 10 sachets"),
   ("WPCCP01_01", "Amul Whey Protein, 32 g | Pack of 30 Sachets"),
   ("WPCCP02_01", "Amul Whey Protein, 32 g | Pack of 60 Sachets"),
   ("WPCCP06_01", "Amul Chocolate Whey Protein Gift Pack, 34 g | Pack of 10 sachets"),
   ("WPCCP03_01", "Amul Chocolate Whey Protein, 34 g | Pack of 30 sachets"),
   ("WPCCP05_02", "Amul Chocolate Whey Protein, 34 g | Pack of 60 sachets"),
   ("BTMCP11_30", "Amul High Protein Buttermilk, 200 mL | Pack of 30"),
   ("LASCP61_30", "Amul High Protein Plain Lassi, 200 mL | Pack of 30"),
   ("LASCP40_30", "Amul High Protein Rose Lassi, 200 mL | Pack of 30"),
   ("HPMCP01_08", "Amul High Protein Milk, 250 mL | Pack of 8"),
   ("HPMCP01_32", "Amul High Protein Milk, 250 mL | Pack of 32")]

/-- The fresh record `subscribeToProduct` creates for an unknown user
(interactive_bot.go lines 867-874): empty SKU set, no location, nil
last-notification map. -/
def newUserSubscription (userID : String) (username : String) (now : Int) : UserSubscription :=
  { userID := userID, username := username, monitoredSKUs := [],
    createdAt := now, updatedAt := now }

/-- The four user-visible outcomes of `subscribeToProduct`. -/
inductive SubscribeResult where
  | productNotFound
  | locationRequired
  | alreadySubscribed
  | subscribed
deriving DecidableEq

/-- `subscribeToProduct` (interactive_bot.go lines 857-941): unknown SKU is
rejected outright; an unknown user gets a fresh record before any other
check; a record without a location yields the location-required warning; an
already-subscribed SKU is a no-op; otherwise the SKU is added and
`UpdatedAt` stamped. -/
def subscribeToProduct (subscriptions : Registry) (userID : String) (username : String)
    (sku : String) (now : Int) : SubscribeResult × Registry :=
  if (lookupKey availableProducts sku).isNone then
    (.productNotFound, subscriptions)
  else
    let withUser :=
      match lookupKey subscriptions userID with
      | some sub => (sub, subscriptions)
      | none =>
        let sub := newUserSubscription userID username now
        (sub, insertKey subscriptions userID sub)
    let sub := withUser.1
    let subscriptions₁ := withUser.2
    if sub.location = "" then
      (.locationRequired, subscriptions₁)
    else if lookupKey sub.monitoredSKUs sku = some true then
      (.alreadySubscribed, subscriptions₁)
    else
      (.subscribed,
       insertKey subscriptions₁ userID
         { sub with monitoredSKUs := insertKey sub.monitoredSKUs sku true,
                    updatedAt := now })

/-- `setUserLocation` (interactive_bot.go lines 262-338), state-mutating part.
The state-name normalization (the `stateMap` lookup / title-casing of custom
input) is passed in as the already-resolved `stateName`; an unknown user gets
a full fresh record with the default 30-minute frequency, an existing record
has location, store code and `UpdatedAt` overwritten and a nil
last-notification map initialized. -/
def setUserLocation (subscriptions : Registry) (userID : String) (username : String)
    (stateName : String) (storeCode : String) (now : Int) : Registry :=
  match lookupKey subscriptions userID with
  | none =>
    insertKey subscriptions userID
      { userID := userID, username := username, monitoredSKUs := [],
        location := stateName, storeCode := storeCode,
        notificationFrequency := "every_30_minutes", lastNotification := some [],
        createdAt := now, updatedAt := now }
  | some sub =>
    insertKey subscriptions userID
      { sub with location := stateName, storeCode := storeCode, updatedAt := now,
                 lastNotification :=
                   match sub.lastNotification with
                   | none => some []
                   | some m => some m }

/-- The subscribed-item set a registry records for a user (empty when the
user has no record). -/
def subscribedSKUs (subscriptions : Registry) (userID : String) : List (String × Bool) :=
  match lookupKey subscriptions userID with
  | none => []
  | some sub => sub.monitoredSKUs

/-- The location a registry records for a user (empty when the user has no
record — the same state a fresh `subscribeToProduct` record starts in). -/
def subscriberLocation (subscriptions : Registry) (userID : String) : String :=
  match lookupKey subscriptions userID with
  | none => ""
  | some sub => sub.location

/-! ## Quiet hours, Telegram send, retry and dispatch -/

/-- Quiet-hours window start (bot.go line 23). -/
def quietHourStart : Nat := 0

/-- Quiet-hours window end, exclusive (bot.go line 24). -/
def quietHourEnd : Nat := 7

/-- `isQuietHours` (part_001 lines 31-39, interactive_bot.go lines
1367-1375): nil location ⇒ not quiet hours; otherwise the current hour in
that location (passed here as `localHour`) is compared against the fixed
window. -/
def isQuietHours (loc : Option String) (localHour : Nat) : Bool :=
  match loc with
  | none => false
  | some _ => decide (localHour ≥ quietHourStart) && decide (localHour < quietHourEnd)

/-- Observable outcome of one Telegram send-message HTTP exchange: transport
error, body-read error, or a response carrying the HTTP status and the parse
of the body's `ok` field (`none` = malformed JSON, `some none` = JSON without
a boolean `ok`, `some (some b)` = `ok` field `b`). -/
inductive TelegramResponse where
  | netError
  | readError (status : Nat)
  | response (status : Nat) (okField : Option (Option Bool))
deriving DecidableEq

/-- `sendTelegramNotification` (interactive_bot.go lines 1377-1445, amul.go
lines 462-530): quiet hours short-circuit to a nil error before any request;
missing configuration is an error; otherwise the gateway is contacted (second
component) and the response classified. Unparsable success-JSON is only a
logged warning, i.e. a nil error. -/
def sendTelegramNotification (quiet : Bool) (configured : Bool)
    (resp : TelegramResponse) : Option String × Bool :=
  if quiet then (none, false)
  else if configured = false then
    (some "telegram bot token or chat id is not configured", false)
  else
    match resp with
    | .netError => (some "error sending request to telegram api", true)
    | .readError _ => (some "error reading telegram response body", true)
    | .response status okField =>
      if status = 200 then
        match okField with
        | none => (none, true)
        | some none => (some "telegram api reported failure despite 200 OK", true)
        | some (some ok) =>
          if ok then (none, true)
          else (some "telegram api reported failure despite 200 OK", true)
      else (some "telegram api returned non-OK status", true)

/-- The attempt loop of `sendNotificationWithRetry`: given the would-be
outcome of each successive attempt, return how many attempts were made and
whether one succeeded (the loop stops at the first success). -/
def sendAttemptLoop : List Bool → Nat × Bool
  | [] => (0, false)
  | ok :: rest =>
    if ok then (1, true)
    else
      let r := sendAttemptLoop rest
      (r.1 + 1, r.2)

/-- `sendNotificationWithRetry` (interactive_bot.go lines 1495-1518): quiet
hours suppress the notification with zero attempts; otherwise up to 3
attempts with a fixed 2-second sleep between them, stopping at the first
success; total failure is logged and dropped. No last-notified timestamp is
touched on any path. -/
def sendNotificationWithRetry (quiet : Bool) (r₁ r₂ r₃ : Bool) : Nat × Bool :=
  if quiet then (0, false) else sendAttemptLoop [r₁, r₂, r₃]

/-- What the interactive dispatcher did for one recipient: how many send
attempts were made and whether `UpdateLastNotification` was called. -/
structure DispatchOutcome where
  sendAttempts : Nat
  lastNotifiedUpdated : Bool
deriving DecidableEq

/-- The per-subscriber body of `SendStockNotificationToSubscribers`
(interactive_bot.go lines 1217-1241): skip non-subscribers, skip on the
frequency throttle, skip on quiet hours; otherwise `sendMessage` is called
once — its error is logged and discarded, so `sendSucceeds` does not affect
the outcome — and `UpdateLastNotification` is called unconditionally. -/
def dispatchToSubscriber (subscriptions : Registry) (userID : String) (sku : String)
    (now : Int) (quiet : Bool) (sendSucceeds : Bool) : DispatchOutcome :=
  match lookupKey subscriptions userID with
  | none => { sendAttempts := 0, lastNotifiedUpdated := false }
  | some sub =>
    if lookupKey sub.monitoredSKUs sku = some true then
      if shouldSendNotification subscriptions userID sku now = false then
        { sendAttempts := 0, lastNotifiedUpdated := false }
      else if quiet = false then
        { sendAttempts := 1, lastNotifiedUpdated := true }
      else
        { sendAttempts := 0, lastNotifiedUpdated := false }
    else { sendAttempts := 0, lastNotifiedUpdated := false }

/-! ## Session refresh (src/unnamed/part_001 lines 214-223 and 362-447) -/

/-- Observable outcome of one upstream HTTP call: transport error, or a
response with its status code. -/
inductive HttpResult where
  | err
  | ok (status : Nat)
deriving DecidableEq

/-- How a call to `refreshCookieWithStore` ends: with a returned error, with
a refreshed expiry, or with `log.Fatalf` terminating the whole process. -/
inductive RefreshOutcome where
  | retError
  | refreshed (newExpiry : Int)
  | fatalExit
deriving DecidableEq

/-- `refreshCookieWithStore` (part_001 lines 362-447): a transport error on
either the landing GET or the preference-binding PUT is returned as an error;
the GET's status is never inspected (only its cookie headers, whose parsed
expiry is `parsedExpiry` here); a non-200 status on the PUT hits
`log.Fatalf("Cookie validation failed...")`, terminating the process. -/
def refreshCookieWithStore (getResult : HttpResult) (putResult : HttpResult)
    (parsedExpiry : Int) : RefreshOutcome :=
  match getResult with
  | .err => .retError
  | .ok _ =>
    match putResult with
    | .err => .retError
    | .ok status =>
      if status = 200 then .refreshed parsedExpiry else .fatalExit

/-- Whether the process survives a step, and the cookie expiry it continues
with. -/
inductive ProcessState where
  | running (cookieExpiry : Int)
  | terminated
deriving DecidableEq

/-- `cookieRefreshMargin = 90 * time.Hour`, in seconds. -/
def cookieRefreshMargin : Int := 90 * 60 * 60

/-- `checkCookie` (part_001 lines 214-223), the steady-state refresh entry
point run at the top of every poll cycle: refresh only when the expiry is
within the margin; a returned refresh error is logged and the stale expiry
kept; a fatal refresh kills the process. -/
def checkCookie (now : Int) (cookieExpiry : Int) (refreshOutcome : RefreshOutcome) :
    ProcessState :=
  if now + cookieRefreshMargin > cookieExpiry then
    match refreshOutcome with
    | .retError => .running cookieExpiry
    | .refreshed newExpiry => .running newExpiry
    | .fatalExit => .terminated
  else .running cookieExpiry

/-! ## Association-map lemmas -/

theorem lookupKey_nil {β : Type} (k : String) :
    lookupKey ([] : List (String × β)) k = none := rfl

theorem lookupKey_insertKey_self {β : Type} (m : List (String × β)) (k : String) (v : β) :
    lookupKey (insertKey m k v) k = some v := by
  induction m with
  | nil => simp [insertKey, lookupKey]
  | cons hd tl ih =>
    obtain ⟨k', v'⟩ := hd
    by_cases h : k' = k
    · simp [insertKey, h, lookupKey]
    · simp only [insertKey, if_neg h, lookupKey]
      rw [if_neg (fun hkk => h hkk.symm)]
      exact ih

theorem lookupKey_insertKey_ne {β : Type} (m : List (String × β)) (k k' : String) (v : β)
    (h : k' ≠ k) : lookupKey (insertKey m k v) k' = lookupKey m k' := by
  induction m with
  | nil => simp [insertKey, lookupKey, h]
  | cons hd tl ih =>
    obtain ⟨k₀, v₀⟩ := hd
    by_cases h₀ : k₀ = k
    · subst h₀
      simp [insertKey, lookupKey, h]
    · simp only [insertKey, if_neg h₀, lookupKey]
      by_cases h₁ : k' = k₀
      · simp [h₁]
      · simp [h₁, ih]

theorem lookupKey_insertKey_isSome {β : Type} (m : List (String × β)) (k k' : String) (v : β)
    (h : (lookupKey m k').isSome = true) :
    (lookupKey (insertKey m k v) k').isSome = true := by
  by_cases hk : k' = k
  · subst hk; rw [lookupKey_insertKey_self]; rfl
  · rw [lookupKey_insertKey_ne m k k' v hk]; exact h

/-! ## Claim C1 — the diff is not transition-gated in the available direction -/

/-- C1 counterexample: a monitored item whose prior recorded availability is
`true` and whose snapshot availability is still `true` nevertheless emits an
in-stock notification on this cycle — the claim says a cycle with prior equal
to current emits nothing. -/
theorem c1_repeated_available_reemits :
    lookupKey (CheckState.mk [("A1", true)] []).productStockState "A1" = some true ∧
    ((⟨"A1", 1⟩ : String × Int).2 == 1) = true ∧
    (checkTargetStockCycle ["A1"] [{ sku := "A1", available := 1 }]
        (CheckState.mk [("A1", true)] [])).2 =
      [{ sku := "A1", isInStock := true }] := by
  decide

/-- C1 (amended): the diff is transition-gated only in the unavailable
direction. For a monitored item present in the snapshot: if it is available
an in-stock notification is emitted on every cycle regardless of prior
state; if it is unavailable an out-of-stock notification is emitted exactly
when the prior recorded availability was `true`; and the recorded state is
always updated to the current availability. -/
theorem c1_transition_gating (st : CheckState) (p : ProductInfo) :
    (p.available = 1 →
      (processPresentProduct st p).2 = [{ sku := p.sku, isInStock := true }]) ∧
    (p.available ≠ 1 →
      (processPresentProduct st p).2 =
        (if lookupKey st.productStockState p.sku = some true then
          [{ sku := p.sku, isInStock := false }]
        else [])) ∧
    lookupKey (processPresentProduct st p).1.productStockState p.sku =
      some (p.available == 1) := by
  refine ⟨?_, ?_, ?_⟩
  · intro h
    simp [processPresentProduct, h]
  · intro h
    have hb : (p.available == 1) = false := by
      simpa using h
    by_cases hl : lookupKey st.productStockState p.sku = some true
    · simp [processPresentProduct, hb, hl]
    · simp [processPresentProduct, hb, hl]
  · simp [processPresentProduct, lookupKey_insertKey_self]

/-- C1 witness: the amended characterization applied to a concrete available
product and a concrete product that just went out of stock. -/
theorem c1_witness :
    (processPresentProduct (CheckState.mk [("A1", true)] [])
        { sku := "A1", available := 1 }).2 = [{ sku := "A1", isInStock := true }] ∧
    (processPresentProduct (CheckState.mk [("B2", true)] [])
        { sku := "B2", available := 0 }).2 = [{ sku := "B2", isInStock := false }] := by
  constructor
  · exact (c1_transition_gating (CheckState.mk [("A1", true)] [])
      { sku := "A1", available := 1 }).1 rfl
  · have h := (c1_transition_gating (CheckState.mk [("B2", true)] [])
      { sku := "B2", available := 0 }).2.1 (by decide)
    rw [h]
    decide

/-! ## Claim C2 — steady-state session refresh failure -/

/-- C2: a steady-state cookie refresh whose preference-binding PUT comes back
with HTTP 500 terminates the process (`log.Fatalf` in
`refreshCookieWithStore`), while a transport error on the same refresh is
returned, logged and survived with the stale expiry — so refresh failure is
not fatal-only-at-startup as the claim states. -/
theorem c2_steady_state_put_failure_terminates :
    checkCookie 0 0 (refreshCookieWithStore (.ok 200) (.ok 500) 0) =
      ProcessState.terminated ∧
    checkCookie 0 0 (refreshCookieWithStore .err .err 0) = ProcessState.running 0 := by
  decide

/-! ## Claim C5 — quiet hours window -/

/-- C5: `isQuietHours` is `true` exactly when a timezone is configured and
the local hour lies in the half-open window `[quietHourStart, quietHourEnd)`
= `[0, 7)`; with no timezone it is always `false`. -/
theorem c5_quiet_hours_iff (loc : Option String) (localHour : Nat) :
    isQuietHours loc localHour = true ↔
      loc.isSome = true ∧ quietHourStart ≤ localHour ∧ localHour < quietHourEnd := by
  cases loc with
  | none => simp [isQuietHours]
  | some tz => simp [isQuietHours, quietHourStart, quietHourEnd]

/-! ## Claim C8 — transient fetch failures mutate nothing -/

/-- C8: any fetch outcome other than a successfully parsed HTTP-200 response
(request error, transport error, read error, non-OK status, malformed JSON)
leaves both per-item maps exactly as they were and emits no notification. -/
theorem c8_failed_fetch_no_mutation (monitoredSKUs : List String) (fetch : FetchResult)
    (st : CheckState)
    (h : ∀ snapshot : List ProductInfo, fetch ≠ .response 200 (some snapshot)) :
    checkTargetStock monitoredSKUs fetch st = (st, []) := by
  cases fetch with
  | requestError => rfl
  | networkError => rfl
  | readError => rfl
  | response status parsed =>
    by_cases hs : status = 200
    · subst hs
      cases parsed with
      | none => rfl
      | some snapshot => exact absurd rfl (h snapshot)
    · simp [checkTargetStock, hs]

/-- C8 witness: a non-OK status response leaves a concrete state untouched. -/
theorem c8_witness :
    checkTargetStock ["A1"] (.response 500 (some []))
        (CheckState.mk [("A1", true)] []) = (CheckState.mk [("A1", true)] [], []) := by
  exact c8_failed_fetch_no_mutation ["A1"] (.response 500 (some []))
    (CheckState.mk [("A1", true)] [])
    (fun snapshot h => by injection h with h₁ h₂; exact absurd h₁ (by decide))

/-! ## Claim C9 — quiet-hours suppression is silent success -/

/-- C9: during quiet hours `sendTelegramNotification` returns a nil error
without contacting the messaging gateway, whatever the configuration and
whatever the gateway would have answered — indistinguishable from a
successful delivery to every caller. -/
theorem c9_quiet_hours_send_is_silent_success (configured : Bool)
    (resp : TelegramResponse) :
    sendTelegramNotification true configured resp = (none, false) := rfl

/-! ## Claim C4 — the notification frequency throttle -/

/-- C4: for an existing subscription, `ShouldSendNotification` is true when
the frequency is unset or the every-check setting, true when no last-notified
timestamp exists for the item, and otherwise true exactly when the elapsed
time reaches the frequency's minimum interval. -/
theorem c4_should_notify_spec (subscriptions : Registry) (userID sku : String)
    (now : Int) (sub : UserSubscription)
    (hsub : lookupKey subscriptions userID = some sub) :
    (sub.notificationFrequency = "" ∨ sub.notificationFrequency = "every_check" →
      shouldSendNotification subscriptions userID sku now = true) ∧
    (lookupLastNotification sub.lastNotification sku = none →
      shouldSendNotification subscriptions userID sku now = true) ∧
    (∀ last interval, lookupLastNotification sub.lastNotification sku = some last →
      throttledInterval sub.notificationFrequency = some interval →
      (shouldSendNotification subscriptions userID sku now = true ↔
        now - last ≥ interval)) := by
  refine ⟨?_, ?_, ?_⟩
  · intro h
    simp [shouldSendNotification, hsub, h]
  · intro h
    by_cases hu : sub.notificationFrequency = "" ∨ sub.notificationFrequency = "every_check"
    · simp [shouldSendNotification, hsub, hu]
    · simp [shouldSendNotification, hsub, hu, h]
  · intro last interval hlast hint
    simp only [throttledInterval] at hint
    split_ifs at hint with h₁ h₂ h₃ h₄ h₅ h₆ h₇ <;>
      first
        | (injection hint with hint
           subst hint
           simp_all [shouldSendNotification])
        | exact absurd hint (by simp)

/-- C4 witness: the throttle characterization at the spec's own example —
frequency hourly, last notified 90 minutes ago gives true, 10 minutes ago
gives false. -/
theorem c4_witness :
    shouldSendNotification
        [("7", { userID := "7", notificationFrequency := "hourly",
                 lastNotification := some [("A1", 0)] })] "7" "A1" 5400 = true ∧
    shouldSendNotification
        [("7", { userID := "7", notificationFrequency := "hourly",
                 lastNotification := some [("A1", 0)] })] "7" "A1" 600 = false := by
  constructor
  · exact ((c4_should_notify_spec
      [("7", { userID := "7", notificationFrequency := "hourly",
               lastNotification := some [("A1", 0)] })] "7" "A1" 5400
      { userID := "7", notificationFrequency := "hourly",
        lastNotification := some [("A1", 0)] } rfl).2.2 0 3600 rfl rfl).mpr
      (by decide)
  · have h := (c4_should_notify_spec
      [("7", { userID := "7", notificationFrequency := "hourly",
               lastNotification := some [("A1", 0)] })] "7" "A1" 600 _ rfl).2.2
      0 3600 rfl rfl
    by_cases hb : shouldSendNotification
        [("7", { userID := "7", notificationFrequency := "hourly",
                 lastNotification := some [("A1", 0)] })] "7" "A1" 600 = true
    · exact absurd (h.mp hb) (by decide)
    · simpa using hb

/-! ## Claim C10 — frame conditions of UpdateLastNotification -/

/-- C10: `UpdateLastNotification` for an unknown recipient leaves the whole
registry unchanged; for an existing record it stamps exactly the item's
last-notified time and the record's `UpdatedAt` (initializing a nil map),
leaving every other field, every other item's timestamp, and every other
recipient's record untouched. -/
theorem c10_update_last_notification_frame (subscriptions : Registry)
    (userID sku : String) (now : Int) :
    (lookupKey subscriptions userID = none →
      updateLastNotification subscriptions userID sku now = subscriptions) ∧
    (∀ sub, lookupKey subscriptions userID = some sub →
      ∃ sub',
        lookupKey (updateLastNotification subscriptions userID sku now) userID =
          some sub' ∧
        lookupLastNotification sub'.lastNotification sku = some now ∧
        sub'.updatedAt = now ∧
        sub'.userID = sub.userID ∧
        sub'.username = sub.username ∧
        sub'.monitoredSKUs = sub.monitoredSKUs ∧
        sub'.location = sub.location ∧
        sub'.storeCode = sub.storeCode ∧
        sub'.notificationFrequency = sub.notificationFrequency ∧
        sub'.lastManualCheck = sub.lastManualCheck ∧
        sub'.createdAt = sub.createdAt ∧
        (∀ sku', sku' ≠ sku →
          lookupLastNotification sub'.lastNotification sku' =
            lookupLastNotification sub.lastNotification sku') ∧
        (∀ userID', userID' ≠ userID →
          lookupKey (updateLastNotification subscriptions userID sku now) userID' =
            lookupKey subscriptions userID')) := by
  constructor
  · intro h
    simp [updateLastNotification, h]
  · intro sub hsub
    refine ⟨{ sub with
        lastNotification := some (insertKey
          (match sub.lastNotification with | none => [] | some m => m) sku now),
        updatedAt := now }, ?_, ?_, rfl, rfl, rfl, rfl, rfl, rfl, rfl, rfl, rfl, ?_, ?_⟩
    · simp only [updateLastNotification, hsub]
      exact lookupKey_insertKey_self _ _ _
    · simp only [lookupLastNotification]
      exact lookupKey_insertKey_self _ _ _
    · intro sku' hne
      simp only [lookupLastNotification]
      rw [lookupKey_insertKey_ne _ _ _ _ hne]
      cases h : sub.lastNotification with
      | none => simp [lookupKey]
      | some m => simp
    · intro userID' hne
      simp only [updateLastNotification, hsub]
      exact lookupKey_insertKey_ne _ _ _ _ hne

/-- C10 witness: the frame theorem applied to a concrete registry with one
recorded subscription carrying a nil last-notification map. -/
theorem c10_witness :
    lookupKey (updateLastNotification
        [("7", { userID := "7", monitoredSKUs := [("A1", true)] }),
         ("8", { userID := "8" })] "9" "A1" 100)
      "8" = some { userID := "8" } ∧
    (∃ sub',
      lookupKey (updateLastNotification
          [("7", { userID := "7", monitoredSKUs := [("A1", true)] }),
           ("8", { userID := "8" })] "7" "A1" 100) "7" = some sub' ∧
      lookupLastNotification sub'.lastNotification "A1" = some 100 ∧
      sub'.monitoredSKUs = [("A1", true)]) := by
  constructor
  · have h := (c10_update_last_notification_frame
      [("7", { userID := "7", monitoredSKUs := [("A1", true)] }),
       ("8", { userID := "8" })] "9" "A1" 100).1 rfl
    rw [h]
    decide
  · obtain ⟨sub', h₁, h₂, _, _, _, hmon, _⟩ :=
      (c10_update_last_notification_frame
        [("7", { userID := "7", monitoredSKUs := [("A1", true)] }),
         ("8", { userID := "8" })] "7" "A1" 100).2
        { userID := "7", monitoredSKUs := [("A1", true)] } rfl
    exact ⟨sub', h₁, h₂, hmon⟩

/-! ## Claim C3 — dispatcher retry and timestamp discipline -/

/-- C3 counterexample: an eligible recipient, outside quiet hours, whose
single delivery attempt fails (`sendSucceeds = false`) still gets its
last-notified timestamp updated, and only one attempt is ever made — the
claim says up to 3 attempts and no timestamp update when delivery fails. -/
theorem c3_failed_send_still_updates_timestamp :
    dispatchToSubscriber
        [("7", { userID := "7", monitoredSKUs := [("A1", true)] })]
        "7" "A1" 0 false false =
      { sendAttempts := 1, lastNotifiedUpdated := true } := by
  decide

/-- C3 (amended): the interactive dispatcher makes exactly one send attempt
per eligible recipient — the send error is discarded — and calls
`UpdateLastNotification` exactly once, unconditionally; the separate
`sendNotificationWithRetry` helper of the config-driven path stops at the
first success, makes exactly 3 attempts when all fail (then drops), never
more than 3, and never touches any last-notified timestamp. -/
theorem c3_dispatch_and_retry (subscriptions : Registry) (userID sku : String)
    (now : Int) (sendSucceeds : Bool) (sub : UserSubscription)
    (hsub : lookupKey subscriptions userID = some sub)
    (hmon : lookupKey sub.monitoredSKUs sku = some true)
    (hfreq : shouldSendNotification subscriptions userID sku now = true) :
    dispatchToSubscriber subscriptions userID sku now false sendSucceeds =
      { sendAttempts := 1, lastNotifiedUpdated := true } ∧
    (∀ r₂ r₃, sendNotificationWithRetry false true r₂ r₃ = (1, true)) ∧
    sendNotificationWithRetry false false false false = (3, false) ∧
    (∀ quiet r₁ r₂ r₃, (sendNotificationWithRetry quiet r₁ r₂ r₃).1 ≤ 3) := by
  refine ⟨?_, ?_, ?_, ?_⟩
  · simp [dispatchToSubscriber, hsub, hmon, hfreq]
  · intro r₂ r₃
    rfl
  · rfl
  · intro quiet r₁ r₂ r₃
    cases quiet <;> cases r₁ <;> cases r₂ <;> cases r₃ <;> decide

/-- C3 witness: the amended characterization at a concrete eligible
recipient whose delivery succeeds. -/
theorem c3_witness :
    dispatchToSubscriber
        [("9", { userID := "9", monitoredSKUs := [("A1", true)] })]
        "9" "A1" 0 false true =
      { sendAttempts := 1, lastNotifiedUpdated := true } ∧
    sendNotificationWithRetry false true false false = (1, true) := by
  have h := c3_dispatch_and_retry
    [("9", { userID := "9", monitoredSKUs := [("A1", true)] })] "9" "A1" 0 true
    { userID := "9", monitoredSKUs := [("A1", true)] } rfl rfl (by decide)
  exact ⟨h.1, h.2.1 false false⟩

/-! ## Claim C7 — the subscribe location gate -/

/-- C7: subscribing a known product without a location on record yields
`locationRequired` and leaves the subscribed-item set unchanged; once a
(non-empty) location is set the same call subscribes the item; an identical
second call yields `alreadySubscribed` and leaves the registry exactly as it
was. -/
theorem c7_subscribe_location_gate (subscriptions : Registry)
    (userID username sku stateName storeCode : String) (now₁ now₂ now₃ now₄ : Int)
    (hsku : (lookupKey availableProducts sku).isSome = true)
    (hloc : subscriberLocation subscriptions userID = "")
    (hnew : lookupKey (subscribedSKUs subscriptions userID) sku ≠ some true)
    (hstate : stateName ≠ "") :
    (subscribeToProduct subscriptions userID username sku now₁).1 =
      SubscribeResult.locationRequired ∧
    subscribedSKUs (subscribeToProduct subscriptions userID username sku now₁).2
        userID =
      subscribedSKUs subscriptions userID ∧
    (subscribeToProduct
        (setUserLocation (subscribeToProduct subscriptions userID username sku now₁).2
          userID username stateName storeCode now₂)
        userID username sku now₃).1 = SubscribeResult.subscribed ∧
    lookupKey
        (subscribedSKUs
          (subscribeToProduct
            (setUserLocation
              (subscribeToProduct subscriptions userID username sku now₁).2
              userID username stateName storeCode now₂)
            userID username sku now₃).2 userID)
        sku = some true ∧
    subscribeToProduct
        (subscribeToProduct
          (setUserLocation
            (subscribeToProduct subscriptions userID username sku now₁).2
            userID username stateName storeCode now₂)
          userID username sku now₃).2
        userID username sku now₄ =
      (SubscribeResult.alreadySubscribed,
       (subscribeToProduct
          (setUserLocation
            (subscribeToProduct subscriptions userID username sku now₁).2
            userID username stateName storeCode now₂)
          userID username sku now₃).2) := by
  obtain ⟨productName, hnm⟩ := Option.isSome_iff_exists.mp hsku
  cases h₀ : lookupKey subscriptions userID with
  | none =>
    refine ⟨?_, ?_, ?_, ?_, ?_⟩
    · simp [subscribeToProduct, hnm, h₀, newUserSubscription]
    · simp [subscribeToProduct, hnm, h₀, newUserSubscription, subscribedSKUs,
        lookupKey_insertKey_self]
    · simp [subscribeToProduct, hnm, h₀, newUserSubscription, setUserLocation,
        lookupKey_insertKey_self, hstate, lookupKey_nil]
    · simp [subscribeToProduct, hnm, h₀, newUserSubscription, setUserLocation,
        lookupKey_insertKey_self, hstate, lookupKey_nil, subscribedSKUs]
    · simp [subscribeToProduct, hnm, h₀, newUserSubscription, setUserLocation,
        lookupKey_insertKey_self, hstate, lookupKey_nil]
  | some sub =>
    have hloc' : sub.location = "" := by
      simpa [subscriberLocation, h₀] using hloc
    have hnew' : lookupKey sub.monitoredSKUs sku ≠ some true := by
      simpa [subscribedSKUs, h₀] using hnew
    refine ⟨?_, ?_, ?_, ?_, ?_⟩
    · simp [subscribeToProduct, hnm, h₀, hloc']
    · simp [subscribeToProduct, hnm, h₀, hloc']
    · simp [subscribeToProduct, hnm, h₀, hloc', setUserLocation,
        lookupKey_insertKey_self, hstate, hnew']
    · simp [subscribeToProduct, hnm, h₀, hloc', setUserLocation,
        lookupKey_insertKey_self, hstate, hnew', subscribedSKUs]
    · simp [subscribeToProduct, hnm, h₀, hloc', setUserLocation,
        lookupKey_insertKey_self, hstate, hnew']

/-- C7 witness: the full scenario on an empty registry with a real catalog
SKU — location-required first, subscribed after the location is set,
already-subscribed (and registry unchanged) on the repeat call. -/
theorem c7_witness :
    (subscribeToProduct [] "7" "u" "WPCCP01_01" 10).1 =
      SubscribeResult.locationRequired ∧
    (subscribeToProduct
        (setUserLocation (subscribeToProduct [] "7" "u" "WPCCP01_01" 10).2
          "7" "u" "Gujarat" "gujarat" 20)
        "7" "u" "WPCCP01_01" 30).1 = SubscribeResult.subscribed ∧
    subscribeToProduct
        (subscribeToProduct
          (setUserLocation (subscribeToProduct [] "7" "u" "WPCCP01_01" 10).2
            "7" "u" "Gujarat" "gujarat" 20)
          "7" "u" "WPCCP01_01" 30).2
        "7" "u" "WPCCP01_01" 40 =
      (SubscribeResult.alreadySubscribed,
       (subscribeToProduct
          (setUserLocation (subscribeToProduct [] "7" "u" "WPCCP01_01" 10).2
            "7" "u" "Gujarat" "gujarat" 20)
          "7" "u" "WPCCP01_01" 30).2) := by
  have h := c7_subscribe_location_gate [] "7" "u" "WPCCP01_01" "Gujarat" "gujarat"
    10 20 30 40 (by decide) rfl (by decide) (by decide)
  exact ⟨h.1, h.2.2.1, h.2.2.2.2⟩

/-! ## Claim C6 — absent monitored items -/

theorem notifsFor_append (sku : String) (l₁ l₂ : List StockNotification) :
    notifsFor sku (l₁ ++ l₂) = notifsFor sku l₁ ++ notifsFor sku l₂ := by
  simp [notifsFor]

theorem notifsFor_processPresentProduct (st : CheckState) (p : ProductInfo)
    (sku : String) (h : p.sku ≠ sku) :
    notifsFor sku (processPresentProduct st p).2 = [] := by
  have hb : (p.sku == sku) = false := beq_eq_false_iff_ne.mpr h
  simp only [processPresentProduct, notifsFor]
  split_ifs <;> simp [hb]

theorem presentStep_preserved (monitoredSKUs : List String)
    (acc : CheckState × List String × List StockNotification) (p : ProductInfo)
    (sku : String) (h : p.sku ≠ sku) :
    lookupKey (presentStep monitoredSKUs acc p).1.productStockState sku =
      lookupKey acc.1.productStockState sku ∧
    (sku ∈ (presentStep monitoredSKUs acc p).2.1 ↔ sku ∈ acc.2.1) ∧
    notifsFor sku (presentStep monitoredSKUs acc p).2.2 = notifsFor sku acc.2.2 := by
  obtain ⟨st, found, notifs⟩ := acc
  by_cases hm : p.sku ∈ monitoredSKUs
  · refine ⟨?_, ?_, ?_⟩
    · simp only [presentStep, if_pos hm, processPresentProduct]
      exact lookupKey_insertKey_ne _ _ _ _ (Ne.symm h)
    · simp [presentStep, hm, Ne.symm h]
    · simp only [presentStep, if_pos hm]
      rw [notifsFor_append, notifsFor_processPresentProduct st p sku h,
        List.append_nil]
  · simp [presentStep, hm]

theorem presentPass_preserved (monitoredSKUs : List String)
    (products : List ProductInfo) (sku : String)
    (acc : CheckState × List String × List StockNotification)
    (h : ∀ p ∈ products, p.sku ≠ sku) :
    lookupKey (presentPass monitoredSKUs acc products).1.productStockState sku =
      lookupKey acc.1.productStockState sku ∧
    (sku ∈ (presentPass monitoredSKUs acc products).2.1 ↔ sku ∈ acc.2.1) ∧
    notifsFor sku (presentPass monitoredSKUs acc products).2.2 =
      notifsFor sku acc.2.2 := by
  induction products generalizing acc with
  | nil => exact ⟨rfl, Iff.rfl, rfl⟩
  | cons p rest ih =>
    have hp : p.sku ≠ sku := h p (List.mem_cons_self p rest)
    have hstep := presentStep_preserved monitoredSKUs acc p sku hp
    have hrest := ih (presentStep monitoredSKUs acc p)
      (fun q hq => h q (List.mem_cons_of_mem p hq))
    simp only [presentPass]
    exact ⟨hrest.1.trans hstep.1, hrest.2.1.trans hstep.2.1,
      hrest.2.2.trans hstep.2.2⟩

theorem presentStep_isSome (monitoredSKUs : List String)
    (acc : CheckState × List String × List StockNotification) (p : ProductInfo)
    (k : String) (h : (lookupKey acc.1.productStockState k).isSome = true) :
    (lookupKey (presentStep monitoredSKUs acc p).1.productStockState k).isSome =
      true := by
  obtain ⟨st, found, notifs⟩ := acc
  by_cases hm : p.sku ∈ monitoredSKUs
  · simp only [presentStep, if_pos hm, processPresentProduct]
    exact lookupKey_insertKey_isSome _ _ _ _ h
  · simpa [presentStep, hm] using h

theorem presentPass_isSome (monitoredSKUs : List String)
    (products : List ProductInfo) (k : String)
    (acc : CheckState × List String × List StockNotification)
    (h : (lookupKey acc.1.productStockState k).isSome = true) :
    (lookupKey (presentPass monitoredSKUs acc products).1.productStockState k).isSome =
      true := by
  induction products generalizing acc with
  | nil => exact h
  | cons p rest ih =>
    simp only [presentPass]
    exact ih (presentStep monitoredSKUs acc p)
      (presentStep_isSome monitoredSKUs acc p k h)

theorem presentPass_found_recorded (monitoredSKUs : List String)
    (products : List ProductInfo)
    (acc : CheckState × List String × List StockNotification)
    (hacc : ∀ m, m ∈ acc.2.1 → (lookupKey acc.1.productStockState m).isSome = true) :
    ∀ m, m ∈ (presentPass monitoredSKUs acc products).2.1 →
      (lookupKey
        (presentPass monitoredSKUs acc products).1.productStockState m).isSome =
        true := by
  induction products generalizing acc with
  | nil => exact hacc
  | cons p rest ih =>
    simp only [presentPass]
    refine ih (presentStep monitoredSKUs acc p) ?_
    intro m hmem
    obtain ⟨st, found, notifs⟩ := acc
    by_cases hm : p.sku ∈ monitoredSKUs
    · simp only [presentStep, if_pos hm] at hmem ⊢
      rcases List.mem_append.mp hmem with hold | hnew
      · simp only [processPresentProduct]
        exact lookupKey_insertKey_isSome _ _ _ _ (hacc m hold)
      · have : m = p.sku := List.mem_singleton.mp hnew
        subst this
        simp only [processPresentProduct]
        rw [lookupKey_insertKey_self]
        rfl
    · simp only [presentStep, if_neg hm] at hmem ⊢
      exact hacc m hmem

theorem processAbsentSKU_state (st : CheckState) (sku : String) :
    (processAbsentSKU st sku).1.productStockState =
      insertKey st.productStockState sku false := by
  unfold processAbsentSKU
  cases h : lookupKey st.productStockState sku with
  | none => rfl
  | some b => cases b <;> rfl

theorem processAbsentSKU_notifs (st : CheckState) (sku : String) :
    (processAbsentSKU st sku).2 =
      if lookupKey st.productStockState sku = some true then
        [{ sku := sku, isInStock := false }]
      else [] := by
  unfold processAbsentSKU
  cases h : lookupKey st.productStockState sku with
  | none => simp
  | some b => cases b <;> simp

theorem absentStep_preserved (found : List String)
    (acc : CheckState × List StockNotification) (m sku : String) (h : m ≠ sku) :
    lookupKey (absentStep found acc m).1.productStockState sku =
      lookupKey acc.1.productStockState sku ∧
    notifsFor sku (absentStep found acc m).2 = notifsFor sku acc.2 := by
  obtain ⟨st, notifs⟩ := acc
  by_cases hf : m ∈ found
  · simp [absentStep, hf]
  · constructor
    · simp only [absentStep, if_neg hf, processAbsentSKU_state]
      exact lookupKey_insertKey_ne _ _ _ _ (Ne.symm h)
    · simp only [absentStep, if_neg hf]
      rw [notifsFor_append, processAbsentSKU_notifs]
      have hb : (m == sku) = false := beq_eq_false_iff_ne.mpr h
      split_ifs <;> simp [notifsFor, hb]

theorem absentPass_preserved (found : List String) (l : List String) (sku : String)
    (acc : CheckState × List StockNotification) (h : ∀ m ∈ l, m ≠ sku) :
    lookupKey (absentPass found acc l).1.productStockState sku =
      lookupKey acc.1.productStockState sku ∧
    notifsFor sku (absentPass found acc l).2 = notifsFor sku acc.2 := by
  induction l generalizing acc with
  | nil => exact ⟨rfl, rfl⟩
  | cons m rest ih =>
    have hm : m ≠ sku := h m (List.mem_cons_self m rest)
    have hstep := absentStep_preserved found acc m sku hm
    have hrest := ih (absentStep found acc m)
      (fun q hq => h q (List.mem_cons_of_mem m hq))
    simp only [absentPass]
    exact ⟨hrest.1.trans hstep.1, hrest.2.trans hstep.2⟩

theorem absentStep_isSome (found : List String)
    (acc : CheckState × List StockNotification) (m k : String)
    (h : (lookupKey acc.1.productStockState k).isSome = true) :
    (lookupKey (absentStep found acc m).1.productStockState k).isSome = true := by
  obtain ⟨st, notifs⟩ := acc
  by_cases hf : m ∈ found
  · simpa [absentStep, hf] using h
  · simp only [absentStep, if_neg hf, processAbsentSKU_state]
    exact lookupKey_insertKey_isSome _ _ _ _ h

theorem absentPass_isSome (found : List String) (l : List String) (k : String)
    (acc : CheckState × List StockNotification)
    (h : (lookupKey acc.1.productStockState k).isSome = true) :
    (lookupKey (absentPass found acc l).1.productStockState k).isSome = true := by
  induction l generalizing acc with
  | nil => exact h
  | cons m rest ih =>
    simp only [absentPass]
    exact ih (absentStep found acc m) (absentStep_isSome found acc m k h)

theorem absentPass_member_isSome (found : List String) (l : List String) (k : String)
    (acc : CheckState × List StockNotification) (hmem : k ∈ l) (hf : k ∉ found) :
    (lookupKey (absentPass found acc l).1.productStockState k).isSome = true := by
  induction l generalizing acc with
  | nil => cases hmem
  | cons m rest ih =>
    simp only [absentPass]
    by_cases hk : m = k
    · subst hk
      refine absentPass_isSome found rest m (absentStep found acc m) ?_
      obtain ⟨st, notifs⟩ := acc
      simp only [absentStep, if_neg hf, processAbsentSKU_state]
      rw [lookupKey_insertKey_self]
      rfl
    · have : k ∈ rest := by
        rcases List.mem_cons.mp hmem with h | h
        · exact absurd h.symm hk
        · exact h
      exact ih (absentStep found acc m) this

theorem absentPass_main (found : List String) (l : List String) (sku : String)
    (acc : CheckState × List StockNotification) (hmem : sku ∈ l) (hnodup : l.Nodup)
    (hf : sku ∉ found) :
    lookupKey (absentPass found acc l).1.productStockState sku = some false ∧
    notifsFor sku (absentPass found acc l).2 =
      notifsFor sku acc.2 ++
        (if lookupKey acc.1.productStockState sku = some true then
          [{ sku := sku, isInStock := false }]
        else []) := by
  induction l generalizing acc with
  | nil => cases hmem
  | cons m rest ih =>
    simp only [absentPass]
    by_cases hk : m = sku
    · subst hk
      have hrest : m ∉ rest := (List.nodup_cons.mp hnodup).1
      have hpres := absentPass_preserved found rest m (absentStep found acc m)
        (fun q hq => fun he => hrest (he ▸ hq))
      obtain ⟨st, notifs⟩ := acc
      constructor
      · rw [hpres.1]
        simp only [absentStep, if_neg hf, processAbsentSKU_state]
        exact lookupKey_insertKey_self _ _ _
      · rw [hpres.2]
        simp only [absentStep, if_neg hf]
        rw [notifsFor_append, processAbsentSKU_notifs]
        congr 1
        split_ifs <;> simp [notifsFor]
    · have hmem' : sku ∈ rest := by
        rcases List.mem_cons.mp hmem with h | h
        · exact absurd h.symm hk
        · exact h
      have hstep := absentStep_preserved found acc m sku hk
      have := ih (absentStep found acc m) hmem' (List.nodup_cons.mp hnodup).2
      rw [this.1, this.2, hstep.1, hstep.2]
      exact ⟨rfl, rfl⟩

/-- C6: a monitored item absent from the snapshot emits exactly one
out-of-stock notification when its prior recorded availability was `true` and
none otherwise, its state is recorded as `false` either way, and after the
cycle every monitored item has a recorded state. -/
theorem c6_absent_item_handling (monitoredSKUs : List String)
    (snapshot : List ProductInfo) (st : CheckState) (sku : String)
    (hmem : sku ∈ monitoredSKUs)
    (habs : ∀ p ∈ snapshot, p.sku ≠ sku)
    (hnodup : monitoredSKUs.Nodup) :
    notifsFor sku (checkTargetStockCycle monitoredSKUs snapshot st).2 =
      (if lookupKey st.productStockState sku = some true then
        [{ sku := sku, isInStock := false }]
      else []) ∧
    lookupKey
        (checkTargetStockCycle monitoredSKUs snapshot st).1.productStockState sku =
      some false ∧
    (∀ m ∈ monitoredSKUs,
      (lookupKey
        (checkTargetStockCycle monitoredSKUs snapshot st).1.productStockState
          m).isSome = true) := by
  have hpre := presentPass_preserved monitoredSKUs snapshot sku (st, [], []) habs
  have hnotfound : sku ∉ (presentPass monitoredSKUs (st, [], []) snapshot).2.1 := by
    intro hcon
    exact absurd (hpre.2.1.mp hcon) (List.not_mem_nil sku)
  have hmain := absentPass_main
    (presentPass monitoredSKUs (st, [], []) snapshot).2.1 monitoredSKUs sku
    ((presentPass monitoredSKUs (st, [], []) snapshot).1,
     (presentPass monitoredSKUs (st, [], []) snapshot).2.2)
    hmem hnodup hnotfound
  simp only [checkTargetStockCycle]
  refine ⟨?_, hmain.1, ?_⟩
  · rw [hmain.2, hpre.2.2, hpre.1]
    simp [notifsFor]
  · intro m hm
    by_cases hmf : m ∈ (presentPass monitoredSKUs (st, [], []) snapshot).2.1
    · refine absentPass_isSome _ _ _ _ ?_
      exact presentPass_found_recorded monitoredSKUs snapshot (st, [], [])
        (fun q hq => absurd hq (List.not_mem_nil q)) m hmf
    · exact absentPass_member_isSome _ _ _ _ hm hmf

/-- C6 witness: one monitored SKU, previously in stock, absent from an empty
snapshot — exactly one out-of-stock notification, state recorded `false`. -/
theorem c6_witness :
    notifsFor "A1"
        (checkTargetStockCycle ["A1"] [] (CheckState.mk [("A1", true)] [])).2 =
      [{ sku := "A1", isInStock := false }] ∧
    lookupKey
        (checkTargetStockCycle ["A1"] []
          (CheckState.mk [("A1", true)] [])).1.productStockState "A1" =
      some false := by
  have h := c6_absent_item_handling ["A1"] [] (CheckState.mk [("A1", true)] []) "A1"
    (by simp) (by simp) (by simp)
  refine ⟨?_, h.2.1⟩
  rw [h.1]
  decide

end AmulNotifier
